import Mathlib

/-!
# zgenai-go: configuration loader, connection pool set-up and schema script

A shallow embedding of three Go source files

* `internal/config/config.go`  (`Config`, `Load`, `getEnv`, `parseAllowedOrigins`)
* `pkg/database/postgres.go`   (`NewPostgresDB`, `InitSchema`)
* `internal/models/models.go`  (`User` and its JSON struct tags)

Go strings are modelled by Lean strings.  The only character the code ever
searches for is the ASCII comma, so splitting a string at commas is the same
whether the string is read as bytes or as characters.

The Go standard library and the `pgxpool` driver are not part of the
repository.  The few library functions the code calls (`os.Getenv`,
`strings.Split`, `fmt.Errorf`) are modelled after their Go implementation; the
driver operations (`ParseConfig`, `NewWithConfig`, `Ping`, `Exec`) are
parameters of the embedding.
-/

set_option autoImplicit false

/-! ## Go runtime pieces used by the code -/

namespace os

/-- The process environment: a variable is either unset or has a value. -/
abbrev Environ := String → Option String

/-- Go `os.Getenv`: the value of the variable, the empty string when unset. -/
def Getenv (env : Environ) (key : String) : String :=
  (env key).getD ""

end os

namespace strings

/-- Go `strings.Count` for a separator of one byte: the number of
occurrences of `c` in `s`. -/
def Count : List Char → Char → Nat
  | [], _ => 0
  | x :: xs, c => (if x = c then 1 else 0) + Count xs c

/-- Go `strings.Index` for a separator of one byte: the index of the first
occurrence of `c` in `s`, or `-1` when there is none. -/
def Index : List Char → Char → Int
  | [], _ => -1
  | x :: xs, c =>
    if x = c then 0
    else
      let m := Index xs c
      if m < 0 then -1 else m + 1

/-- The loop of Go `genSplit`, with `k` the number of iterations still
allowed (`n - i` after `n--`):
```go
for i < n {
    m := Index(s, sep)
    if m < 0 { break }
    a[i] = s[:m+sepSave]
    s = s[m+len(sep):]
    i++
}
a[i] = s
return a[:i+1]
```
-/
def genSplitLoop (sep : Char) (sepSave : Nat) : Nat → List Char → List (List Char)
  | 0, s => [s]
  | k + 1, s =>
    let m := Index s sep
    if m < 0 then [s]
    else s.take (m.toNat + sepSave) :: genSplitLoop sep sepSave k (s.drop (m.toNat + 1))

/-- Go `strings.genSplit` for a separator of one byte. -/
def genSplit (s : List Char) (sep : Char) (sepSave : Nat) (n : Int) : List (List Char) :=
  if n = 0 then []
  else
    let n₁ : Nat := if n < 0 then Count s sep + 1 else n.toNat
    let n₂ : Nat := if n₁ > s.length + 1 then s.length + 1 else n₁
    genSplitLoop sep sepSave (n₂ - 1) s

/-- Go `strings.Split(s, sep)` for a separator of one byte:
`genSplit(s, sep, 0, -1)`. -/
def Split (s : String) (sep : Char) : List String :=
  (genSplit s.data sep 0 (-1)).map String.mk

/-- Go `strings.Join`. -/
def Join (elems : List String) (sep : String) : String :=
  match elems with
  | [] => ""
  | [e] => e
  | e :: rest => rest.foldl (fun b s => b ++ sep ++ s) e

/-- Pieces put back together with the separator between them. -/
def glue (sep : List Char) : List (List Char) → List Char
  | [] => []
  | p :: ps => p ++ (ps.map (fun q => sep ++ q)).flatten

end strings

/-! ## `internal/config/config.go` -/

namespace config

/-- The Go struct `Config`. -/
structure Config where
  Port : String
  Env : String
  DatabaseURL : String
  JWTSecret : String
  AdminEmail : String
  AdminPassword : String
  GCPProjectID : String
  GCPBucketName : String
  GCPRegion : String
  SendGridAPIKey : String
  FromEmail : String
  AllowedOrigins : List String
  RateLimitRequests : Int
  RateLimitWindow : Int
  deriving DecidableEq, Repr

/-- Go `getEnv`: the variable when it reads non-empty, else the default. -/
def getEnv (env : os.Environ) (key defaultValue : String) : String :=
  let value := os.Getenv env key
  if value ≠ "" then value else defaultValue

/-- Go `parseAllowedOrigins`. -/
def parseAllowedOrigins (origins : String) : List String :=
  if origins = "*" then ["*"] else strings.Split origins ','

/-- Go `Load`, with the process environment made an argument. -/
def Load (env : os.Environ) : Config :=
  { Port := getEnv env "PORT" "8080"
    Env := getEnv env "ENV" "development"
    DatabaseURL := getEnv env "DATABASE_URL" ""
    JWTSecret := getEnv env "JWT_SECRET" "default-secret-change-me"
    AdminEmail := getEnv env "ADMIN_EMAIL" "admin@zgenai.com"
    AdminPassword := getEnv env "ADMIN_PASSWORD" "Admin@123"
    GCPProjectID := getEnv env "GCP_PROJECT_ID" ""
    GCPBucketName := getEnv env "GCP_BUCKET_NAME" "zgenai-uploads"
    GCPRegion := getEnv env "GCP_REGION" "us-central1"
    SendGridAPIKey := getEnv env "SENDGRID_API_KEY" ""
    FromEmail := getEnv env "FROM_EMAIL" "noreply@zgenai.org"
    AllowedOrigins := parseAllowedOrigins (getEnv env "ALLOWED_ORIGINS" "*")
    RateLimitRequests := 100
    RateLimitWindow := 60 }

/-- The variable is unset or set to the empty string. -/
def unsetOrEmpty (env : os.Environ) (key : String) : Prop :=
  env key = none ∨ env key = some ""

instance (env : os.Environ) (key : String) : Decidable (unsetOrEmpty env key) := by
  unfold unsetOrEmpty; infer_instance

/-- The way a string setting is read: the default when the variable is unset
or empty, the literal value of the variable otherwise. -/
def readsSetting (env : os.Environ) (key defaultValue field : String) : Prop :=
  (unsetOrEmpty env key → field = defaultValue) ∧
  (¬ unsetOrEmpty env key → env key = some field) ∧
  (field = defaultValue ↔ (unsetOrEmpty env key ∨ env key = some defaultValue))

end config

/-! ## Go errors -/

/-- Go `error` values as far as the code builds them: a plain message
(`fmt.Errorf` without `%w`) or a message that wraps another error
(`fmt.Errorf` with `%w`). -/
inductive GoError where
  | errorString (s : String)
  | wrapError (msg : String) (err : GoError)
  deriving DecidableEq, Repr

namespace GoError

/-- The method `Error()`. -/
def Error : GoError → String
  | errorString s => s
  | wrapError msg _ => msg

end GoError

namespace fmt

/-- Go `fmt.Errorf(msg)` for a format without verbs. -/
def Errorf (msg : String) : GoError :=
  GoError.errorString msg

/-- Go `fmt.Errorf(pre + "%w", err)`: the message is the text before the verb
followed by `err.Error()`, and the result unwraps to `err`. -/
def ErrorfW (pre : String) (err : GoError) : GoError :=
  GoError.wrapError (pre ++ err.Error) err

end fmt

/-! ## The `pgxpool` driver, as parameters -/

namespace pgxpool

/-- The driver struct `pgxpool.Config`: the two bounds the code assigns, and
every other field (connection settings, lifetimes, hooks) kept together in
`rest`. -/
structure Config (R : Type) where
  MaxConns : Int
  MinConns : Int
  rest : R
  deriving DecidableEq, Repr

/-- A call made to the driver. -/
inductive Call (R P : Type) where
  | ParseConfig (connString : String)
  | NewWithConfig (config : Config R)
  | Ping (pool : P)
  deriving DecidableEq, Repr

/-- The three steps of acquiring a pool. -/
inductive Step where
  | parse
  | construct
  | ping
  deriving DecidableEq, Repr

/-- The step a call belongs to. -/
def Call.step {R P : Type} : Call R P → Step
  | Call.ParseConfig _ => Step.parse
  | Call.NewWithConfig _ => Step.construct
  | Call.Ping _ => Step.ping

/-- The configurations handed to the pool constructor in a list of calls. -/
def configsConstructed {R P : Type} : List (Call R P) → List (Config R)
  | [] => []
  | Call.NewWithConfig c :: cs => c :: configsConstructed cs
  | _ :: cs => configsConstructed cs

/-- The driver operations `NewPostgresDB` uses, each an arbitrary function of
its argument and of the state `W` of everything outside the program (network,
database server); each returns its result and the state it leaves.  A call
shows in the outside state only through what the operation does to it. -/
structure Driver (W R P : Type) where
  ParseConfig : String → W → Except GoError (Config R) × W
  NewWithConfig : Config R → W → Except GoError P × W
  Ping : P → W → Option GoError × W

/-- The same driver with a log: the outside state carries the list of calls
the driver has received, and each operation appends its call to it. -/
def record {W R P : Type} (d : Driver W R P) : Driver (W × List (Call R P)) R P where
  ParseConfig := fun url s =>
    ((d.ParseConfig url s.1).1, ((d.ParseConfig url s.1).2, s.2 ++ [Call.ParseConfig url]))
  NewWithConfig := fun config s =>
    ((d.NewWithConfig config s.1).1,
      ((d.NewWithConfig config s.1).2, s.2 ++ [Call.NewWithConfig config]))
  Ping := fun pool s =>
    ((d.Ping pool s.1).1, ((d.Ping pool s.1).2, s.2 ++ [Call.Ping pool]))

end pgxpool

/-! ## `pkg/database/postgres.go` -/

namespace database

open pgxpool

/-- Go `NewPostgresDB`: the returned pair (a pool, or an error and no pool)
and the outside state it leaves. -/
def NewPostgresDB {W R P : Type} (d : Driver W R P) (databaseURL : String) (w : W) :
    Except GoError P × W :=
  if databaseURL = "" then
    (Except.error (fmt.Errorf "DATABASE_URL is required"), w)
  else
    match d.ParseConfig databaseURL w with
    | (Except.error err, w₁) =>
      (Except.error (fmt.ErrorfW "unable to parse database URL: " err), w₁)
    | (Except.ok parsed, w₁) =>
      let config := { parsed with MaxConns := 25, MinConns := 5 }
      match d.NewWithConfig config w₁ with
      | (Except.error err, w₂) =>
        (Except.error (fmt.ErrorfW "unable to create connection pool: " err), w₂)
      | (Except.ok pool, w₂) =>
        match d.Ping pool w₂ with
        | (some err, w₃) =>
          (Except.error (fmt.ErrorfW "unable to ping database: " err), w₃)
        | (none, w₃) => (Except.ok pool, w₃)

/-- The script `schema` of `InitSchema`, line by line as in the source. -/
def schema : String := String.join [
    "\n",
    "\t-- Users table\n",
    "\tCREATE TABLE IF NOT EXISTS users (\n",
    "\t\tid SERIAL PRIMARY KEY,\n",
    "\t\tname VARCHAR(255) NOT NULL,\n",
    "\t\temail VARCHAR(255) UNIQUE NOT NULL,\n",
    "\t\tphone VARCHAR(50) NOT NULL,\n",
    "\t\taddress TEXT NOT NULL,\n",
    "\t\tpassword_hash VARCHAR(255) NOT NULL,\n",
    "\t\tcreated_at TIMESTAMP DEFAULT CURRENT_TIMESTAMP,\n",
    "\t\tlast_login TIMESTAMP\n",
    "\t);\n",
    "\n",
    "\t-- Sessions table\n",
    "\tCREATE TABLE IF NOT EXISTS sessions (\n",
    "\t\tid SERIAL PRIMARY KEY,\n",
    "\t\tuser_id INTEGER NOT NULL REFERENCES users(id) ON DELETE CASCADE,\n",
    "\t\ttoken VARCHAR(255) UNIQUE NOT NULL,\n",
    "\t\tcreated_at TIMESTAMP DEFAULT CURRENT_TIMESTAMP\n",
    "\t);\n",
    "\n",
    "\t-- Applications table\n",
    "\tCREATE TABLE IF NOT EXISTS applications (\n",
    "\t\tid SERIAL PRIMARY KEY,\n",
    "\t\tposition VARCHAR(255) NOT NULL,\n",
    "\t\tfull_name VARCHAR(255) NOT NULL,\n",
    "\t\temail VARCHAR(255) NOT NULL,\n",
    "\t\tphone VARCHAR(50) NOT NULL,\n",
    "\t\taddress TEXT NOT NULL,\n",
    "\t\tcollege VARCHAR(255) NOT NULL,\n",
    "\t\tdegree VARCHAR(255) NOT NULL,\n",
    "\t\tsemester VARCHAR(50) NOT NULL,\n",
    "\t\tyear VARCHAR(50) NOT NULL,\n",
    "\t\tabout TEXT NOT NULL,\n",
    "\t\tresume_name VARCHAR(255),\n",
    "\t\tresume_data BYTEA,\n",
    "\t\tlinkedin VARCHAR(500),\n",
    "\t\tgithub VARCHAR(500),\n",
    "\t\tstatus VARCHAR(50) DEFAULT \x27pending\x27,\n",
    "\t\tapplied_at TIMESTAMP DEFAULT CURRENT_TIMESTAMP\n",
    "\t);\n",
    "\n",
    "\t-- Emails table\n",
    "\tCREATE TABLE IF NOT EXISTS emails (\n",
    "\t\tid SERIAL PRIMARY KEY,\n",
    "\t\tto_email VARCHAR(255) NOT NULL,\n",
    "\t\tsubject VARCHAR(500) NOT NULL,\n",
    "\t\tbody TEXT NOT NULL,\n",
    "\t\tsent_at TIMESTAMP DEFAULT CURRENT_TIMESTAMP,\n",
    "\t\tuser_id INTEGER REFERENCES users(id) ON DELETE SET NULL\n",
    "\t);\n",
    "\n",
    "\t-- Selected interns table\n",
    "\tCREATE TABLE IF NOT EXISTS selected_interns (\n",
    "\t\tid SERIAL PRIMARY KEY,\n",
    "\t\tapplication_id INTEGER REFERENCES applications(id) ON DELETE CASCADE,\n",
    "\t\tfull_name VARCHAR(255) NOT NULL,\n",
    "\t\temail VARCHAR(255) UNIQUE NOT NULL,\n",
    "\t\tpassword_hash VARCHAR(255) NOT NULL,\n",
    "\t\tposition VARCHAR(255) NOT NULL,\n",
    "\t\tcollege VARCHAR(255) NOT NULL,\n",
    "\t\tstart_date DATE DEFAULT CURRENT_DATE,\n",
    "\t\tstatus VARCHAR(50) DEFAULT \x27active\x27,\n",
    "\t\tcreated_at TIMESTAMP DEFAULT CURRENT_TIMESTAMP\n",
    "\t);\n",
    "\n",
    "\t-- Indexes for performance\n",
    "\tCREATE INDEX IF NOT EXISTS idx_users_email ON users(email);\n",
    "\tCREATE INDEX IF NOT EXISTS idx_sessions_token ON sessions(token);\n",
    "\tCREATE INDEX IF NOT EXISTS idx_applications_status ON applications(status);\n",
    "\tCREATE INDEX IF NOT EXISTS idx_applications_applied_at ON applications(applied_at DESC);\n",
    "\tCREATE INDEX IF NOT EXISTS idx_emails_sent_at ON emails(sent_at DESC);\n",
    "\t"]

/-- Go `InitSchema`, with `pool.Exec` a parameter: an arbitrary function of the
pool, the SQL text and the outside state. -/
def InitSchema {W P : Type} (Exec : P → String → W → Option GoError × W) (pool : P) (w : W) :
    Option GoError × W :=
  match Exec pool schema w with
  | (some err, w₁) => (some (fmt.ErrorfW "failed to initialize schema: " err), w₁)
  | (none, w₁) => (none, w₁)

end database

/-! ## Reading the schema script

`InitSchema` hands the script to the database as one string.  To speak about
the statements in it, the string is read here the way a SQL front end reads
it: comments run from `--` to the end of the line, quoted literals are kept
whole, brackets, commas and semicolons stand alone, and statements end at a
semicolon. -/

namespace sql

/-- What the reader is inside of. -/
inductive Mode where
  | code
  | comment
  | quoted
  deriving DecidableEq, Repr

/-- Close the word being read, if any. -/
def flush (acc : List Char) (rest : List String) : List String :=
  if acc = [] then rest else String.mk acc.reverse :: rest

/-- The single quote. -/
def quote : Char := Char.ofNat 39

/-- The tokens of a script. `acc` holds the current word, last character
first. -/
def lex : Mode → List Char → List Char → List String
  | Mode.code, acc, [] => flush acc []
  | Mode.comment, _, [] => []
  | Mode.quoted, acc, [] => [String.mk acc.reverse]
  | Mode.comment, _, c :: cs =>
    if c = '\n' then lex Mode.code [] cs else lex Mode.comment [] cs
  | Mode.quoted, acc, c :: cs =>
    if c = quote then String.mk (c :: acc).reverse :: lex Mode.code [] cs
    else lex Mode.quoted (c :: acc) cs
  | Mode.code, acc, c :: cs =>
    if c = '-' ∧ cs.head? = some '-' then flush acc (lex Mode.comment [] cs)
    else if c = quote then flush acc (lex Mode.quoted [c] cs)
    else if c = ' ' ∨ c = '\t' ∨ c = '\n' ∨ c = '\r' then flush acc (lex Mode.code [] cs)
    else if c = '(' ∨ c = ')' ∨ c = ',' ∨ c = ';' then
      flush acc (String.mk [c] :: lex Mode.code [] cs)
    else lex Mode.code (c :: acc) cs

/-- Cut a token list into statements at the semicolons; a statement without
tokens is dropped. `acc` holds the current statement, last token first. -/
def splitStatements : List String → List String → List (List String)
  | acc, [] => if acc = [] then [] else [acc.reverse]
  | acc, t :: ts =>
    if t = ";" then
      if acc = [] then splitStatements [] ts else acc.reverse :: splitStatements [] ts
    else splitStatements (t :: acc) ts

/-- The tokens left after the given leading tokens, if they lead. -/
def dropPrefix : List String → List String → Option (List String)
  | [], ts => some ts
  | _ :: _, [] => none
  | k :: ks, t :: ts => if k = t then dropPrefix ks ts else none

/-- A column of a `CREATE TABLE`: its name, the rest of its definition, and the
table and column a `REFERENCES` clause in it names. -/
structure Column where
  name : String
  definition : List String
  references : Option (String × String)
  deriving DecidableEq, Repr

/-- A statement of the script. -/
inductive Statement where
  | createTable (ifNotExists : Bool) (name : String) (columns : List Column)
  | createIndex (ifNotExists : Bool) (name table column : String) (descending : Bool)
  | unrecognised (tokens : List String)
  deriving DecidableEq, Repr

/-- The bracketed list after the table name cut at its top-level commas, up to
the closing bracket. `depth` counts the brackets open inside the list. -/
def splitColumns : Nat → List String → List String → List (List String)
  | _, acc, [] => [acc.reverse]
  | depth, acc, t :: ts =>
    if t = "(" then splitColumns (depth + 1) (t :: acc) ts
    else if t = ")" then
      if depth = 0 then [acc.reverse] else splitColumns (depth - 1) (t :: acc) ts
    else if t = "," ∧ depth = 0 then acc.reverse :: splitColumns 0 [] ts
    else splitColumns depth (t :: acc) ts

/-- The target of the first `REFERENCES table ( column )` among the tokens. -/
def findReferences : List String → Option (String × String)
  | [] => none
  | t :: ts =>
    if t = "REFERENCES" then
      match ts with
      | tbl :: "(" :: col :: ")" :: _ => some (tbl, col)
      | _ => none
    else findReferences ts

/-- One column definition. -/
def parseColumn : List String → Column
  | [] => ⟨"", [], none⟩
  | name :: rest => ⟨name, rest, findReferences rest⟩

/-- The index target `( column )` or `( column DESC )`. -/
def parseIndexTarget : List String → Option (String × Bool)
  | ["(", col, ")"] => some (col, false)
  | ["(", col, "ASC", ")"] => some (col, false)
  | ["(", col, "DESC", ")"] => some (col, true)
  | _ => none

/-- A `CREATE TABLE` after its keywords. -/
def parseCreateTable (ifNotExists : Bool) (all : List String) : List String → Statement
  | name :: "(" :: body =>
    Statement.createTable ifNotExists name ((splitColumns 0 [] body).map parseColumn)
  | _ => Statement.unrecognised all

/-- A `CREATE INDEX` after its keywords. -/
def parseCreateIndex (ifNotExists : Bool) (all : List String) : List String → Statement
  | name :: "ON" :: table :: target =>
    match parseIndexTarget target with
    | some (col, desc) => Statement.createIndex ifNotExists name table col desc
    | none => Statement.unrecognised all
  | _ => Statement.unrecognised all

/-- One statement from its tokens. -/
def parseStatement (ts : List String) : Statement :=
  match dropPrefix ["CREATE", "TABLE", "IF", "NOT", "EXISTS"] ts with
  | some rest => parseCreateTable true ts rest
  | none =>
    match dropPrefix ["CREATE", "TABLE"] ts with
    | some rest => parseCreateTable false ts rest
    | none =>
      match dropPrefix ["CREATE", "INDEX", "IF", "NOT", "EXISTS"] ts with
      | some rest => parseCreateIndex true ts rest
      | none =>
        match dropPrefix ["CREATE", "INDEX"] ts with
        | some rest => parseCreateIndex false ts rest
        | none => Statement.unrecognised ts

/-- The statements of a script. -/
def parseScript (script : String) : List Statement :=
  (splitStatements [] (lex Mode.code [] script.data)).map parseStatement

/-- What a statement creates, without the column definitions. -/
inductive Header where
  | table (ifNotExists : Bool) (name : String)
  | index (ifNotExists : Bool) (table column : String) (descending : Bool)
  | other
  deriving DecidableEq, Repr

/-- The header of a statement. -/
def Statement.header : Statement → Header
  | Statement.createTable ine name _ => Header.table ine name
  | Statement.createIndex ine _ table column desc => Header.index ine table column desc
  | Statement.unrecognised _ => Header.other

end sql

/-! ## The database catalog

The database server is outside the repository.  Its part in schema
initialization is modelled by the catalog of relations (tables, indexes and
sequences, which share one namespace) and the behaviour of PostgreSQL on the
two kinds of statement the script holds.

`CREATE TABLE [IF NOT EXISTS] t (...)`:
* when a relation `t` exists the statement fails, or with `IF NOT EXISTS` is
  skipped and succeeds, before anything else of it is looked at;
* a column named twice, or more than one primary key, fails;
* else a sequence is made for every serial column, then the table, then a
  unique index for the primary key and one for every other `UNIQUE` column;
  the names of these are `t_c_seq`, `t_pkey` and `t_c_key`, or, when such a
  name is taken, the name followed by the first of 1, 2, ... that is free;
* then every `REFERENCES u (c)` is resolved: `u` must be a table, `c` a
  column of it, and a unique index on `c` must exist; else the statement
  fails.

`CREATE INDEX [IF NOT EXISTS] i ON t (c)`:
* `t` must be a table and `c` a column of it, else the statement fails;
* then, when a relation `i` exists, the statement fails, or with
  `IF NOT EXISTS` is skipped and succeeds;
* else the index is added.

A script sent as one string runs in one implicit transaction: when a statement
fails the earlier ones are undone.  Column types, defaults, nullability and
the rows of the tables are not part of the catalog, and names are taken to be
within the length the server keeps. -/

namespace postgres

open sql

/-- The statements of the script of `InitSchema`, written out; that reading
the script gives exactly these is `parseScript_schema`. -/
def schemaStatements : List sql.Statement :=
  open sql in [
    Statement.createTable true "users"
      [⟨"id", ["SERIAL", "PRIMARY", "KEY"], none⟩,
       ⟨"name", ["VARCHAR", "(", "255", ")", "NOT", "NULL"], none⟩,
       ⟨"email", ["VARCHAR", "(", "255", ")", "UNIQUE", "NOT", "NULL"], none⟩,
       ⟨"phone", ["VARCHAR", "(", "50", ")", "NOT", "NULL"], none⟩,
       ⟨"address", ["TEXT", "NOT", "NULL"], none⟩,
       ⟨"password_hash", ["VARCHAR", "(", "255", ")", "NOT", "NULL"], none⟩,
       ⟨"created_at", ["TIMESTAMP", "DEFAULT", "CURRENT_TIMESTAMP"], none⟩,
       ⟨"last_login", ["TIMESTAMP"], none⟩],
    Statement.createTable true "sessions"
      [⟨"id", ["SERIAL", "PRIMARY", "KEY"], none⟩,
       ⟨"user_id", ["INTEGER", "NOT", "NULL",
         "REFERENCES", "users", "(", "id", ")", "ON", "DELETE", "CASCADE"], some ("users", "id")⟩,
       ⟨"token", ["VARCHAR", "(", "255", ")", "UNIQUE", "NOT", "NULL"], none⟩,
       ⟨"created_at", ["TIMESTAMP", "DEFAULT", "CURRENT_TIMESTAMP"], none⟩],
    Statement.createTable true "applications"
      [⟨"id", ["SERIAL", "PRIMARY", "KEY"], none⟩,
       ⟨"position", ["VARCHAR", "(", "255", ")", "NOT", "NULL"], none⟩,
       ⟨"full_name", ["VARCHAR", "(", "255", ")", "NOT", "NULL"], none⟩,
       ⟨"email", ["VARCHAR", "(", "255", ")", "NOT", "NULL"], none⟩,
       ⟨"phone", ["VARCHAR", "(", "50", ")", "NOT", "NULL"], none⟩,
       ⟨"address", ["TEXT", "NOT", "NULL"], none⟩,
       ⟨"college", ["VARCHAR", "(", "255", ")", "NOT", "NULL"], none⟩,
       ⟨"degree", ["VARCHAR", "(", "255", ")", "NOT", "NULL"], none⟩,
       ⟨"semester", ["VARCHAR", "(", "50", ")", "NOT", "NULL"], none⟩,
       ⟨"year", ["VARCHAR", "(", "50", ")", "NOT", "NULL"], none⟩,
       ⟨"about", ["TEXT", "NOT", "NULL"], none⟩,
       ⟨"resume_name", ["VARCHAR", "(", "255", ")"], none⟩,
       ⟨"resume_data", ["BYTEA"], none⟩,
       ⟨"linkedin", ["VARCHAR", "(", "500", ")"], none⟩,
       ⟨"github", ["VARCHAR", "(", "500", ")"], none⟩,
       ⟨"status", ["VARCHAR", "(", "50", ")", "DEFAULT", "\x27pending\x27"], none⟩,
       ⟨"applied_at", ["TIMESTAMP", "DEFAULT", "CURRENT_TIMESTAMP"], none⟩],
    Statement.createTable true "emails"
      [⟨"id", ["SERIAL", "PRIMARY", "KEY"], none⟩,
       ⟨"to_email", ["VARCHAR", "(", "255", ")", "NOT", "NULL"], none⟩,
       ⟨"subject", ["VARCHAR", "(", "500", ")", "NOT", "NULL"], none⟩,
       ⟨"body", ["TEXT", "NOT", "NULL"], none⟩,
       ⟨"sent_at", ["TIMESTAMP", "DEFAULT", "CURRENT_TIMESTAMP"], none⟩,
       ⟨"user_id", ["INTEGER",
         "REFERENCES", "users", "(", "id", ")", "ON", "DELETE", "SET", "NULL"], some ("users", "id")⟩],
    Statement.createTable true "selected_interns"
      [⟨"id", ["SERIAL", "PRIMARY", "KEY"], none⟩,
       ⟨"application_id", ["INTEGER",
         "REFERENCES", "applications", "(", "id", ")", "ON", "DELETE", "CASCADE"], some ("applications", "id")⟩,
       ⟨"full_name", ["VARCHAR", "(", "255", ")", "NOT", "NULL"], none⟩,
       ⟨"email", ["VARCHAR", "(", "255", ")", "UNIQUE", "NOT", "NULL"], none⟩,
       ⟨"password_hash", ["VARCHAR", "(", "255", ")", "NOT", "NULL"], none⟩,
       ⟨"position", ["VARCHAR", "(", "255", ")", "NOT", "NULL"], none⟩,
       ⟨"college", ["VARCHAR", "(", "255", ")", "NOT", "NULL"], none⟩,
       ⟨"start_date", ["DATE", "DEFAULT", "CURRENT_DATE"], none⟩,
       ⟨"status", ["VARCHAR", "(", "50", ")", "DEFAULT", "\x27active\x27"], none⟩,
       ⟨"created_at", ["TIMESTAMP", "DEFAULT", "CURRENT_TIMESTAMP"], none⟩],
    Statement.createIndex true "idx_users_email" "users" "email" false,
    Statement.createIndex true "idx_sessions_token" "sessions" "token" false,
    Statement.createIndex true "idx_applications_status" "applications" "status" false,
    Statement.createIndex true "idx_applications_applied_at" "applications" "applied_at" true,
    Statement.createIndex true "idx_emails_sent_at" "emails" "sent_at" true]

/-- A table of the catalog. -/
structure Table where
  name : String
  columns : List String
  deriving DecidableEq, Repr

/-- An index of the catalog, on one column of a table; `unique` for the
indexes behind `PRIMARY KEY` and `UNIQUE`. -/
structure Index where
  name : String
  table : String
  column : String
  descending : Bool
  unique : Bool
  deriving DecidableEq, Repr

/-- The catalog: tables, indexes and sequences, each in the order they were
created. -/
structure Catalog where
  tables : List Table
  indexes : List Index
  sequences : List String
  deriving DecidableEq, Repr

/-- The catalog of a database with nothing in it. -/
def Catalog.empty : Catalog := ⟨[], [], []⟩

/-- The names of the tables. -/
def Catalog.tableNames (db : Catalog) : List String := db.tables.map Table.name

/-- The names of the indexes. -/
def Catalog.indexNames (db : Catalog) : List String := db.indexes.map Index.name

/-- The names of all relations. -/
def Catalog.relationNames (db : Catalog) : List String :=
  db.tableNames ++ db.indexNames ++ db.sequences

/-- A relation (table, index or sequence) of that name exists. -/
def Catalog.hasRelation (db : Catalog) (name : String) : Bool :=
  decide (name ∈ db.relationNames)

/-- The table of that name. -/
def Catalog.findTable (db : Catalog) (name : String) : Option Table :=
  db.tables.find? (fun t => decide (t.name = name))

/-- The search of PostgreSQL `ChooseRelationName`: the name itself on pass 0,
else the name followed by the pass number, the first that is free; `fuel`
bounds the passes. -/
def chooseFrom (db : Catalog) (base : String) : Nat → Nat → String
  | 0, pass => base ++ toString pass
  | fuel + 1, pass =>
    let candidate := if pass = 0 then base else base ++ toString pass
    if db.hasRelation candidate then chooseFrom db base fuel (pass + 1) else candidate

/-- A free relation name for an object the server names itself.  Among one
more candidate than there are relations one is free. -/
def Catalog.chooseRelationName (db : Catalog) (base : String) : String :=
  chooseFrom db base (db.relationNames.length + 1) 0

/-- The column is of a serial type. -/
def isSerial (c : Column) : Bool :=
  match c.definition with
  | [] => false
  | ty :: _ => decide (ty ∈ ["SERIAL", "BIGSERIAL", "SMALLSERIAL"])

/-- The tokens hold `PRIMARY KEY`. -/
def hasPrimaryKey : List String → Bool
  | [] => false
  | t :: ts => (decide (t = "PRIMARY") && decide (ts.head? = some "KEY")) || hasPrimaryKey ts

/-- The column is declared `PRIMARY KEY`. -/
def isPrimaryKey (c : Column) : Bool := hasPrimaryKey c.definition

/-- The column is declared `UNIQUE`. -/
def isUnique (c : Column) : Bool := decide ("UNIQUE" ∈ c.definition)

/-- A sequence for every serial column of the new table. -/
def addSequences (table : String) : Catalog → List Column → Catalog
  | db, [] => db
  | db, c :: cs =>
    if isSerial c then
      addSequences table
        { db with sequences :=
            db.sequences ++ [db.chooseRelationName (table ++ "_" ++ c.name ++ "_seq")] } cs
    else addSequences table db cs

/-- The unique index behind the primary key of the new table. -/
def addPrimaryKeyIndex (table : String) : Catalog → List Column → Catalog
  | db, [] => db
  | db, c :: cs =>
    if isPrimaryKey c then
      addPrimaryKeyIndex table
        { db with indexes :=
            db.indexes ++ [⟨db.chooseRelationName (table ++ "_pkey"), table, c.name, false, true⟩] }
        cs
    else addPrimaryKeyIndex table db cs

/-- A unique index for every `UNIQUE` column of the new table that is not the
primary key. -/
def addUniqueIndexes (table : String) : Catalog → List Column → Catalog
  | db, [] => db
  | db, c :: cs =>
    if isUnique c && !isPrimaryKey c then
      addUniqueIndexes table
        { db with indexes :=
            db.indexes ++
              [⟨db.chooseRelationName (table ++ "_" ++ c.name ++ "_key"), table, c.name, false,
                true⟩] }
        cs
    else addUniqueIndexes table db cs

/-- A `REFERENCES` clause of a column resolves: the table exists, has the
column, and a unique index on it. -/
def referenceResolves (db : Catalog) (c : Column) : Bool :=
  match c.references with
  | none => true
  | some (tbl, col) =>
    match db.findTable tbl with
    | none => false
    | some t =>
      decide (col ∈ t.columns) &&
        db.indexes.any (fun i => decide (i.table = tbl) && decide (i.column = col) && i.unique)

/-- A table that does not exist yet is created. -/
def createTable (db : Catalog) (name : String) (columns : List Column) :
    Except GoError Catalog :=
  if ¬ (columns.map Column.name).Nodup then
    Except.error (GoError.errorString "column specified more than once")
  else if 1 < (columns.filter isPrimaryKey).length then
    Except.error (GoError.errorString
      ("multiple primary keys for table \"" ++ name ++ "\" are not allowed"))
  else
    let db₁ := addSequences name db columns
    let db₂ : Catalog := { db₁ with tables := db₁.tables ++ [⟨name, columns.map Column.name⟩] }
    let db₃ := addPrimaryKeyIndex name db₂ columns
    let db₄ := addUniqueIndexes name db₃ columns
    if columns.all (referenceResolves db₄) then Except.ok db₄
    else Except.error (GoError.errorString "foreign key does not resolve")

/-- One statement run on the catalog. -/
def execStatement (db : Catalog) : Statement → Except GoError Catalog
  | Statement.createTable ifNotExists name columns =>
    if db.hasRelation name then
      if ifNotExists then Except.ok db
      else Except.error (GoError.errorString ("relation \"" ++ name ++ "\" already exists"))
    else createTable db name columns
  | Statement.createIndex ifNotExists name table column descending =>
    match db.findTable table with
    | none => Except.error (GoError.errorString ("relation \"" ++ table ++ "\" does not exist"))
    | some t =>
      if column ∈ t.columns then
        if db.hasRelation name then
          if ifNotExists then Except.ok db
          else Except.error (GoError.errorString ("relation \"" ++ name ++ "\" already exists"))
        else
          Except.ok
            { db with indexes := db.indexes ++ [⟨name, table, column, descending, false⟩] }
      else Except.error (GoError.errorString ("column \"" ++ column ++ "\" does not exist"))
  | Statement.unrecognised _ => Except.error (GoError.errorString "statement not supported")

/-- The statements run in order, stopping at the first failure. -/
def execStatements : Catalog → List Statement → Except GoError Catalog
  | db, [] => Except.ok db
  | db, st :: sts =>
    match execStatement db st with
    | Except.error err => Except.error err
    | Except.ok db₁ => execStatements db₁ sts

/-- The operation `pool.Exec` against the catalog: the whole script or, on a
failure, nothing of it. -/
def Exec (_pool : Unit) (script : String) (db : Catalog) : Option GoError × Catalog :=
  match execStatements db (parseScript script) with
  | Except.error err => (some err, db)
  | Except.ok db₁ => (none, db₁)

/-- The five tables the script names. -/
def schemaTables : List String :=
  ["users", "sessions", "applications", "emails", "selected_interns"]

/-- The five indexes the script names. -/
def schemaIndexes : List String :=
  ["idx_users_email", "idx_sessions_token", "idx_applications_status",
   "idx_applications_applied_at", "idx_emails_sent_at"]

/-- The catalog holds what the statement creates: for a table, a table of
that name with the columns of the statement; for an index, the index of that
name on that table and column. -/
def Catalog.present (db : Catalog) : Statement → Bool
  | Statement.createTable _ name columns =>
    match db.findTable name with
    | none => false
    | some t => columns.all (fun c => decide (c.name ∈ t.columns))
  | Statement.createIndex _ name table column descending =>
    decide ((⟨name, table, column, descending, false⟩ : Index) ∈ db.indexes)
  | Statement.unrecognised _ => false

/-- The catalog already holds the five tables and the five indexes of the
script. -/
def Catalog.holdsSchema (db : Catalog) : Prop :=
  ∀ st ∈ schemaStatements, db.present st = true

instance (db : Catalog) : Decidable db.holdsSchema := by
  unfold Catalog.holdsSchema; infer_instance

/-- A statement of a script that is skipped on every catalog holding what the
script creates: it is a create-if-not-exists, and an index is on a column of a
table the script creates. -/
def skippable (script : List Statement) : Statement → Bool
  | Statement.createTable ifNotExists _ _ => ifNotExists
  | Statement.createIndex ifNotExists _ table column _ =>
    ifNotExists &&
      script.any (fun st =>
        match st with
        | Statement.createTable _ name columns =>
          decide (name = table) && columns.any (fun c => decide (c.name = column))
        | _ => false)
  | Statement.unrecognised _ => false

/-- A catalog other than the one the script builds: a sixth table, a column
more in `users`, no sequences and no indexes but the five of the script. -/
def otherCatalog : Catalog :=
  { tables :=
      [⟨"audit_log", ["id", "at"]⟩,
       ⟨"users", ["id", "name", "email", "phone", "address", "password_hash", "created_at",
          "last_login", "nickname"]⟩,
       ⟨"sessions", ["id", "user_id", "token", "created_at"]⟩,
       ⟨"applications", ["id", "position", "full_name", "email", "phone", "address", "college",
          "degree", "semester", "year", "about", "resume_name", "resume_data", "linkedin",
          "github", "status", "applied_at"]⟩,
       ⟨"emails", ["id", "to_email", "subject", "body", "sent_at", "user_id"]⟩,
       ⟨"selected_interns", ["id", "application_id", "full_name", "email", "password_hash",
          "position", "college", "start_date", "status", "created_at"]⟩]
    indexes :=
      [⟨"idx_emails_sent_at", "emails", "sent_at", true, false⟩,
       ⟨"idx_users_email", "users", "email", false, false⟩,
       ⟨"idx_sessions_token", "sessions", "token", false, false⟩,
       ⟨"idx_applications_status", "applications", "status", false, false⟩,
       ⟨"idx_applications_applied_at", "applications", "applied_at", true, false⟩]
    sequences := [] }

end postgres

/-! ## `internal/models/models.go`: `User` and its JSON struct tags

`encoding/json` is outside the repository; what it does with a struct is
modelled after its rules for struct tags: a field tagged `-` is left out, the
name before the first comma of the tag is the key (the Go field name when it
is empty), and with the option `omitempty` an empty value is left out.  The
tag names of `User` are letters and underscores, which `encoding/json` accepts
as they stand. -/

namespace time

/-- Go `time.Time`, as an instant. -/
structure Time where
  unixNano : Int
  deriving DecidableEq, Repr

end time

namespace json

/-- A Go value of one of the field types of `User`. -/
inductive GoValue where
  | int64 (n : Int)
  | string (s : String)
  | time (t : time.Time)
  | timePtr (t : Option time.Time)
  deriving DecidableEq, Repr

/-- The rule `isEmptyValue` of `encoding/json` on these types: zero, the empty
string and the nil pointer are empty, a struct never is. -/
def isEmptyValue : GoValue → Bool
  | GoValue.int64 n => decide (n = 0)
  | GoValue.string s => decide (s = "")
  | GoValue.time _ => false
  | GoValue.timePtr t => t.isNone

/-- An encoded JSON value. -/
inductive Value where
  | null
  | number (n : Int)
  | string (s : String)
  | time (t : time.Time)
  deriving DecidableEq, Repr

/-- The encoding of a value; a nil pointer encodes as `null`. -/
def encodeValue : GoValue → Value
  | GoValue.int64 n => Value.number n
  | GoValue.string s => Value.string s
  | GoValue.time t => Value.time t
  | GoValue.timePtr none => Value.null
  | GoValue.timePtr (some t) => Value.time t

/-- A struct field: its Go name, the value of its `json` tag, and how to read
it from the struct. -/
structure Field (α : Type) where
  goName : String
  tag : String
  get : α → GoValue

/-- The member a field contributes to the encoded object, if any. -/
def encodeField {α : Type} (x : α) (f : Field α) : Option (String × Value) :=
  if f.tag = "-" then none
  else
    match strings.Split f.tag ',' with
    | [] => some (f.goName, encodeValue (f.get x))
    | name :: opts =>
      if decide ("omitempty" ∈ opts) && isEmptyValue (f.get x) then none
      else some (if name = "" then f.goName else name, encodeValue (f.get x))

/-- The encoded object of a struct with the given fields: its members, in
field order. -/
def Marshal {α : Type} (fields : List (Field α)) (x : α) : List (String × Value) :=
  fields.filterMap (encodeField x)

end json

namespace models

/-- The Go struct `User`. -/
structure User where
  ID : Int
  Name : String
  Email : String
  Phone : String
  Address : String
  PasswordHash : String
  CreatedAt : time.Time
  LastLogin : Option time.Time
  deriving DecidableEq, Repr

/-- The fields of `User` with their `json` tags, as declared. -/
def User.fields : List (json.Field User) :=
  [ ⟨"ID", "id", fun u => json.GoValue.int64 u.ID⟩,
    ⟨"Name", "name", fun u => json.GoValue.string u.Name⟩,
    ⟨"Email", "email", fun u => json.GoValue.string u.Email⟩,
    ⟨"Phone", "phone", fun u => json.GoValue.string u.Phone⟩,
    ⟨"Address", "address", fun u => json.GoValue.string u.Address⟩,
    ⟨"PasswordHash", "-", fun u => json.GoValue.string u.PasswordHash⟩,
    ⟨"CreatedAt", "created_at", fun u => json.GoValue.time u.CreatedAt⟩,
    ⟨"LastLogin", "last_login,omitempty", fun u => json.GoValue.timePtr u.LastLogin⟩ ]

/-- The JSON encoding of a `User`: `json.Marshal(user)`. -/
def User.MarshalJSON (u : User) : List (String × json.Value) :=
  json.Marshal User.fields u

/-- A user, for checking the statements on a value. -/
def User.sample : User :=
  { ID := 7, Name := "Asha", Email := "asha@example.org", Phone := "555-0100",
    Address := "1 Main St", PasswordHash := "$2a$10$abcdefghijklmnopqrstuv",
    CreatedAt := ⟨1700000000000000000⟩, LastLogin := none }

end models

/-! ## Values used to run the definitions -/

namespace database

open pgxpool

/-- A driver to run `NewPostgresDB` on: the outside state counts the calls
made, the parsed configuration carries bounds 4 and 0 and the connection
string as its other fields, and the step named by `failAt` fails. -/
def demoDriver (failAt : Option Step) : Driver Nat String Nat where
  ParseConfig := fun url w =>
    if failAt = some Step.parse then (Except.error (GoError.errorString "invalid dsn"), w + 1)
    else (Except.ok ⟨4, 0, url⟩, w + 1)
  NewWithConfig := fun config w =>
    if failAt = some Step.construct then
      (Except.error (GoError.errorString "cannot create pool"), w + 1)
    else (Except.ok config.MaxConns.toNat, w + 1)
  Ping := fun _ w =>
    if failAt = some Step.ping then
      (some (GoError.errorString "connection refused"), w + 1)
    else (none, w + 1)

end database

/-! ## Facts about the string library model -/

namespace strings

theorem Index_ge (s : List Char) (c : Char) : -1 ≤ Index s c := by
  induction s with
  | nil => simp [Index]
  | cons x xs ih =>
    simp only [Index]
    split_ifs <;> omega

theorem Index_neg {s : List Char} {c : Char} (h : Index s c < 0) :
    c ∉ s ∧ Count s c = 0 := by
  induction s with
  | nil => simp [Count]
  | cons x xs ih =>
    simp only [Index] at h
    by_cases hx : x = c
    · simp [hx] at h
    · simp only [hx, if_false] at h
      by_cases hm : Index xs c < 0
      · obtain ⟨h1, h2⟩ := ih hm
        refine ⟨?_, ?_⟩
        · simp only [List.mem_cons, not_or]
          exact ⟨fun e => hx e.symm, h1⟩
        · simp [Count, hx, h2]
      · simp only [hm, if_false] at h
        have := Index_ge xs c
        omega

theorem Index_nonneg {s : List Char} {c : Char} (h : ¬ Index s c < 0) :
    s = s.take (Index s c).toNat ++ c :: s.drop ((Index s c).toNat + 1) ∧
    c ∉ s.take (Index s c).toNat ∧
    Count s c = Count (s.drop ((Index s c).toNat + 1)) c + 1 := by
  induction s with
  | nil => simp [Index] at h
  | cons x xs ih =>
    by_cases hx : x = c
    · simp [Index, hx, Count]
      omega
    · by_cases hm : Index xs c < 0
      · simp [Index, hx, hm] at h
      · obtain ⟨h1, h2, h3⟩ := ih hm
        have hge : 0 ≤ Index xs c := by omega
        have hI : Index (x :: xs) c = Index xs c + 1 := by
          simp [Index, hx, hm]
        have hN : (Index xs c + 1).toNat = (Index xs c).toNat + 1 := by omega
        rw [hI, hN]
        refine ⟨?_, ?_, ?_⟩
        · simp only [List.take_succ_cons, List.drop_succ_cons, List.cons_append]
          rw [← h1]
        · simp only [List.take_succ_cons, List.mem_cons, not_or]
          exact ⟨fun e => hx e.symm, h2⟩
        · simp only [List.drop_succ_cons, Count, hx, if_false]
          omega

theorem Count_le_length (s : List Char) (c : Char) : Count s c ≤ s.length := by
  induction s with
  | nil => simp [Count]
  | cons x xs ih =>
    simp only [Count, List.length_cons]
    split_ifs <;> omega

theorem genSplitLoop_ne_nil (sep : Char) (sepSave k : Nat) (s : List Char) :
    genSplitLoop sep sepSave k s ≠ [] := by
  cases k with
  | zero => simp [genSplitLoop]
  | succ k =>
    simp only [genSplitLoop]
    split_ifs <;> simp

theorem glue_cons_of_ne_nil (sep p : List Char) {ps : List (List Char)} (h : ps ≠ []) :
    glue sep (p :: ps) = p ++ sep ++ glue sep ps := by
  cases ps with
  | nil => exact absurd rfl h
  | cons q qs => simp [glue]

theorem glue_genSplitLoop (sep : Char) (k : Nat) (s : List Char) :
    glue [sep] (genSplitLoop sep 0 k s) = s := by
  induction k generalizing s with
  | zero => simp [genSplitLoop, glue]
  | succ k ih =>
    simp only [genSplitLoop]
    by_cases hm : Index s sep < 0
    · simp [hm, glue]
    · simp only [hm, if_false, Nat.add_zero]
      rw [glue_cons_of_ne_nil _ _ (genSplitLoop_ne_nil _ _ _ _), ih]
      have hs := (Index_nonneg hm).1
      simpa using hs.symm

theorem length_genSplitLoop (sep : Char) (sepSave k : Nat) (s : List Char)
    (hk : Count s sep ≤ k) :
    (genSplitLoop sep sepSave k s).length = Count s sep + 1 := by
  induction k generalizing s with
  | zero =>
    have : Count s sep = 0 := by omega
    simp [genSplitLoop, this]
  | succ k ih =>
    simp only [genSplitLoop]
    by_cases hm : Index s sep < 0
    · simp [hm, (Index_neg hm).2]
    · simp only [hm, if_false, List.length_cons]
      have hc := (Index_nonneg hm).2.2
      rw [ih _ (by omega), hc]

theorem not_mem_genSplitLoop (sep : Char) (k : Nat) (s : List Char)
    (hk : Count s sep ≤ k) :
    ∀ p ∈ genSplitLoop sep 0 k s, sep ∉ p := by
  induction k generalizing s with
  | zero =>
    have h0 : Count s sep = 0 := by omega
    have hI : Index s sep < 0 := by
      by_contra hm
      have := (Index_nonneg hm).2.2
      omega
    intro p hp
    simp only [genSplitLoop, List.mem_singleton] at hp
    subst hp
    exact (Index_neg hI).1
  | succ k ih =>
    simp only [genSplitLoop]
    by_cases hm : Index s sep < 0
    · intro p hp
      simp only [hm, if_true, List.mem_singleton] at hp
      subst hp
      exact (Index_neg hm).1
    · simp only [hm, if_false, Nat.add_zero, List.mem_cons]
      have hc := (Index_nonneg hm).2.2
      rintro p (rfl | hp)
      · exact (Index_nonneg hm).2.1
      · exact ih _ (by omega) p hp

theorem genSplitLoop_eq_splitOn (sep : Char) (k : Nat) (s : List Char)
    (hk : Count s sep ≤ k) :
    genSplitLoop sep 0 k s = s.splitOn sep := by
  induction k generalizing s with
  | zero =>
    have h0 : Count s sep = 0 := by omega
    have hI : Index s sep < 0 := by
      by_contra hm
      have := (Index_nonneg hm).2.2
      omega
    simp only [genSplitLoop, List.splitOn]
    rw [List.splitOnP_eq_single]
    intro x hx hxs
    have : x = sep := by simpa using hxs
    exact (Index_neg hI).1 (this ▸ hx)
  | succ k ih =>
    simp only [genSplitLoop]
    by_cases hm : Index s sep < 0
    · simp only [hm, if_true, List.splitOn]
      rw [List.splitOnP_eq_single]
      intro x hx hxs
      have : x = sep := by simpa using hxs
      exact (Index_neg hm).1 (this ▸ hx)
    · simp only [hm, if_false, Nat.add_zero]
      obtain ⟨hs, hpre, hc⟩ := Index_nonneg hm
      rw [ih _ (by omega)]
      conv_rhs => rw [hs]
      simp only [List.splitOn]
      rw [List.splitOnP_first]
      · intro x hx hxs
        have : x = sep := by simpa using hxs
        exact hpre (this ▸ hx)
      · simp

theorem genSplit_all (s : List Char) (sep : Char) :
    genSplit s sep 0 (-1) = genSplitLoop sep 0 (Count s sep) s := by
  have h := Count_le_length s sep
  have h2 : ¬ (Count s sep + 1 > s.length + 1) := by omega
  simp [genSplit, h2]

theorem Count_eq_count (s : List Char) (c : Char) : Count s c = s.count c := by
  induction s with
  | nil => simp [Count]
  | cons x xs ih =>
    simp only [Count, ih, List.count_cons]
    by_cases hx : x = c
    · simp [hx]; omega
    · simp [hx]

theorem foldl_append_data (sep : String) (rest : List String) (e : String) :
    (rest.foldl (fun b s => b ++ sep ++ s) e).data =
      e.data ++ (rest.map (fun q => sep.data ++ q.data)).flatten := by
  induction rest generalizing e with
  | nil => simp
  | cons r rs ih => simp [ih, String.data_append]

theorem Join_data (elems : List String) (sep : String) :
    (Join elems sep).data = glue sep.data (elems.map String.data) := by
  match elems with
  | [] => simp [Join, glue]
  | [e] => simp [Join, glue]
  | e :: r :: rs =>
    simp only [Join, foldl_append_data, glue, List.map_cons, List.map_map]
    rfl

theorem Join_Split (s : String) (sep : Char) :
    Join (Split s sep) (String.mk [sep]) = s := by
  apply String.ext
  rw [Join_data, Split, genSplit_all, List.map_map]
  have : (String.data ∘ String.mk) = (id : List Char → List Char) := by
    funext l; rfl
  rw [this, List.map_id]
  exact glue_genSplitLoop sep _ _

end strings

/-! ## The configuration loader -/

namespace config

theorem getEnv_readsSetting (env : os.Environ) (key defaultValue : String) :
    readsSetting env key defaultValue (getEnv env key defaultValue) := by
  unfold readsSetting unsetOrEmpty getEnv os.Getenv
  cases h : env key with
  | none => simp
  | some v =>
    by_cases hv : v = ""
    · subst hv; simp
    · have hv2 : ¬ ("" = v) := fun e => hv e.symm
      simp [hv, hv2, eq_comm]

/-- C1: for every environment, each of the eleven string settings of `Load`
equals its documented default when the variable is unset or set to the empty
string, and equals the literal value of the variable otherwise (so it equals
the default exactly when the variable is unset, empty, or itself the default
text). -/
theorem Load_string_settings (env : os.Environ) :
    readsSetting env "PORT" "8080" (Load env).Port ∧
    readsSetting env "ENV" "development" (Load env).Env ∧
    readsSetting env "DATABASE_URL" "" (Load env).DatabaseURL ∧
    readsSetting env "JWT_SECRET" "default-secret-change-me" (Load env).JWTSecret ∧
    readsSetting env "ADMIN_EMAIL" "admin@zgenai.com" (Load env).AdminEmail ∧
    readsSetting env "ADMIN_PASSWORD" "Admin@123" (Load env).AdminPassword ∧
    readsSetting env "GCP_PROJECT_ID" "" (Load env).GCPProjectID ∧
    readsSetting env "GCP_BUCKET_NAME" "zgenai-uploads" (Load env).GCPBucketName ∧
    readsSetting env "GCP_REGION" "us-central1" (Load env).GCPRegion ∧
    readsSetting env "SENDGRID_API_KEY" "" (Load env).SendGridAPIKey ∧
    readsSetting env "FROM_EMAIL" "noreply@zgenai.org" (Load env).FromEmail :=
  ⟨getEnv_readsSetting _ _ _, getEnv_readsSetting _ _ _, getEnv_readsSetting _ _ _,
   getEnv_readsSetting _ _ _, getEnv_readsSetting _ _ _, getEnv_readsSetting _ _ _,
   getEnv_readsSetting _ _ _, getEnv_readsSetting _ _ _, getEnv_readsSetting _ _ _,
   getEnv_readsSetting _ _ _, getEnv_readsSetting _ _ _⟩

/-- C8: for every environment `Load` gives `RateLimitRequests = 100` and
`RateLimitWindow = 60`, so any two environments give the same two values. -/
theorem Load_rate_limit_fixed (env₁ env₂ : os.Environ) :
    (Load env₁).RateLimitRequests = 100 ∧ (Load env₁).RateLimitWindow = 60 ∧
    (Load env₁).RateLimitRequests = (Load env₂).RateLimitRequests ∧
    (Load env₁).RateLimitWindow = (Load env₂).RateLimitWindow :=
  ⟨rfl, rfl, rfl, rfl⟩

theorem parseAllowedOrigins_of_ne {s : String} (h : s ≠ "*") :
    parseAllowedOrigins s =
      (strings.genSplitLoop ',' 0 (strings.Count s.data ',') s.data).map String.mk := by
  simp [parseAllowedOrigins, h, strings.Split, strings.genSplit_all]

/-- C2: `parseAllowedOrigins "*"` is `["*"]`; any other string is split at
every comma into one or more pieces, each piece kept as it stands (no
trimming); `"a.com,b.com"` gives `["a.com","b.com"]` and `"a.com, b.com"` gives
`["a.com"," b.com"]`. -/
theorem parseAllowedOrigins_spec :
    parseAllowedOrigins "*" = ["*"] ∧
    (∀ s : String, s ≠ "*" →
      parseAllowedOrigins s = (s.data.splitOn ',').map String.mk ∧
      1 ≤ (parseAllowedOrigins s).length) ∧
    parseAllowedOrigins "a.com,b.com" = ["a.com", "b.com"] ∧
    parseAllowedOrigins "a.com, b.com" = ["a.com", " b.com"] := by
  refine ⟨by decide, ?_, by decide, by decide⟩
  intro s hs
  rw [parseAllowedOrigins_of_ne hs]
  refine ⟨?_, ?_⟩
  · rw [strings.genSplitLoop_eq_splitOn _ _ _ (le_refl _)]
  · rw [List.length_map, strings.length_genSplitLoop _ _ _ _ (le_refl _)]
    omega

/-- C10: for every string `s`, joining `parseAllowedOrigins s` with `","` gives
back `s`, the list is never empty, and when `s` is not `"*"` no element
contains a comma and the list has one more element than `s` has commas. -/
theorem parseAllowedOrigins_join (s : String) :
    strings.Join (parseAllowedOrigins s) "," = s ∧
    parseAllowedOrigins s ≠ [] ∧
    (s ≠ "*" →
      (∀ p ∈ parseAllowedOrigins s, ',' ∉ p.data) ∧
      (parseAllowedOrigins s).length = s.data.count ',' + 1) := by
  refine ⟨?_, ?_, ?_⟩
  · by_cases hs : s = "*"
    · subst hs; decide
    · have := strings.Join_Split s ','
      simpa [parseAllowedOrigins, hs] using this
  · by_cases hs : s = "*"
    · subst hs; decide
    · rw [parseAllowedOrigins_of_ne hs]
      simpa using strings.genSplitLoop_ne_nil _ _ _ _
  · intro hs
    rw [parseAllowedOrigins_of_ne hs]
    refine ⟨?_, ?_⟩
    · intro p hp
      obtain ⟨q, hq, rfl⟩ := List.mem_map.1 hp
      exact strings.not_mem_genSplitLoop _ _ _ (le_refl _) q hq
    · rw [List.length_map, strings.length_genSplitLoop _ _ _ _ (le_refl _),
        strings.Count_eq_count]

end config

/-! ## Acquiring the connection pool -/

namespace database

open pgxpool

theorem NewPostgresDB_parse_error {W R P : Type} (d : Driver W R P) {url : String} {w w₁ : W}
    {err : GoError} (hne : url ≠ "") (hparse : d.ParseConfig url w = (Except.error err, w₁)) :
    NewPostgresDB d url w =
      (Except.error (GoError.wrapError ("unable to parse database URL: " ++ err.Error) err),
        w₁) := by
  simp only [NewPostgresDB, hne, if_false, hparse, fmt.ErrorfW]

theorem NewPostgresDB_construct_error {W R P : Type} (d : Driver W R P) {url : String}
    {w w₁ w₂ : W} {parsed : Config R} {err : GoError} (hne : url ≠ "")
    (hparse : d.ParseConfig url w = (Except.ok parsed, w₁))
    (hnew : d.NewWithConfig { parsed with MaxConns := 25, MinConns := 5 } w₁ =
      (Except.error err, w₂)) :
    NewPostgresDB d url w =
      (Except.error (GoError.wrapError ("unable to create connection pool: " ++ err.Error) err),
        w₂) := by
  simp only [NewPostgresDB, hne, if_false, hparse, hnew, fmt.ErrorfW]

theorem NewPostgresDB_ping_error {W R P : Type} (d : Driver W R P) {url : String}
    {w w₁ w₂ w₃ : W} {parsed : Config R} {pool : P} {err : GoError} (hne : url ≠ "")
    (hparse : d.ParseConfig url w = (Except.ok parsed, w₁))
    (hnew : d.NewWithConfig { parsed with MaxConns := 25, MinConns := 5 } w₁ =
      (Except.ok pool, w₂))
    (hping : d.Ping pool w₂ = (some err, w₃)) :
    NewPostgresDB d url w =
      (Except.error (GoError.wrapError ("unable to ping database: " ++ err.Error) err), w₃) := by
  simp only [NewPostgresDB, hne, if_false, hparse, hnew, hping, fmt.ErrorfW]

theorem NewPostgresDB_ok {W R P : Type} (d : Driver W R P) {url : String}
    {w w₁ w₂ w₃ : W} {parsed : Config R} {pool : P} (hne : url ≠ "")
    (hparse : d.ParseConfig url w = (Except.ok parsed, w₁))
    (hnew : d.NewWithConfig { parsed with MaxConns := 25, MinConns := 5 } w₁ =
      (Except.ok pool, w₂))
    (hping : d.Ping pool w₂ = (none, w₃)) :
    NewPostgresDB d url w = (Except.ok pool, w₃) := by
  simp only [NewPostgresDB, hne, if_false, hparse, hnew, hping]

theorem record_ParseConfig {W R P : Type} (d : Driver W R P) (url : String) (w : W)
    (log : List (Call R P)) {r : Except GoError (Config R)} {w₁ : W}
    (h : d.ParseConfig url w = (r, w₁)) :
    (record d).ParseConfig url (w, log) = (r, (w₁, log ++ [Call.ParseConfig url])) := by
  simp [record, h]

theorem record_NewWithConfig {W R P : Type} (d : Driver W R P) (config : Config R) (w : W)
    (log : List (Call R P)) {r : Except GoError P} {w₁ : W}
    (h : d.NewWithConfig config w = (r, w₁)) :
    (record d).NewWithConfig config (w, log) = (r, (w₁, log ++ [Call.NewWithConfig config])) := by
  simp [record, h]

theorem record_Ping {W R P : Type} (d : Driver W R P) (pool : P) (w : W)
    (log : List (Call R P)) {r : Option GoError} {w₁ : W}
    (h : d.Ping pool w = (r, w₁)) :
    (record d).Ping pool (w, log) = (r, (w₁, log ++ [Call.Ping pool])) := by
  simp [record, h]

theorem steps_prefix_one :
    [Step.parse] <+: [Step.parse, Step.construct, Step.ping] :=
  ⟨[Step.construct, Step.ping], rfl⟩

theorem steps_prefix_two :
    [Step.parse, Step.construct] <+: [Step.parse, Step.construct, Step.ping] :=
  ⟨[Step.ping], rfl⟩

/-- C3: `NewPostgresDB` on the empty connection string returns no pool and the
error `DATABASE_URL is required` and leaves the outside state untouched,
whatever the driver operations do; a driver that logs its calls has logged
none; two drivers give the same outcome. -/
theorem NewPostgresDB_empty_url {W R P : Type} (d d₂ : Driver W R P) (w : W) :
    NewPostgresDB d "" w =
      (Except.error (GoError.errorString "DATABASE_URL is required"), w) ∧
    NewPostgresDB (record d) "" (w, []) =
      (Except.error (GoError.errorString "DATABASE_URL is required"), (w, [])) ∧
    NewPostgresDB d "" w = NewPostgresDB d₂ "" w :=
  ⟨rfl, rfl, rfl⟩

/-- C4: for a non-empty connection string that parses, the pool constructor is
called once, second after the parser, and the configuration it receives has
`MaxConns = 25` and `MinConns = 5`, whatever bounds the parsed configuration
carried, and the other fields of the parsed configuration; the answer of the
constructor on that configuration is the one `NewPostgresDB` goes on with. -/
theorem NewPostgresDB_pool_bounds {W R P : Type} (d : Driver W R P) (url : String) (w w₁ : W)
    (parsed : Config R) (hne : url ≠ "")
    (hparse : d.ParseConfig url w = (Except.ok parsed, w₁)) :
    configsConstructed (NewPostgresDB (record d) url (w, [])).2.2 =
      [{ MaxConns := 25, MinConns := 5, rest := parsed.rest }] ∧
    (NewPostgresDB (record d) url (w, [])).2.2.get? 1 =
      some (Call.NewWithConfig { MaxConns := 25, MinConns := 5, rest := parsed.rest }) ∧
    (∀ err w₂,
      d.NewWithConfig { MaxConns := 25, MinConns := 5, rest := parsed.rest } w₁ =
        (Except.error err, w₂) →
      NewPostgresDB d url w =
        (Except.error
          (GoError.wrapError ("unable to create connection pool: " ++ err.Error) err), w₂)) ∧
    (∀ pool w₂ w₃,
      d.NewWithConfig { MaxConns := 25, MinConns := 5, rest := parsed.rest } w₁ =
        (Except.ok pool, w₂) →
      d.Ping pool w₂ = (none, w₃) → NewPostgresDB d url w = (Except.ok pool, w₃)) := by
  have hp := record_ParseConfig d url w [] hparse
  refine ⟨?_, ?_, ?_, ?_⟩
  · rcases hn : d.NewWithConfig { parsed with MaxConns := 25, MinConns := 5 } w₁
      with ⟨err | pool, w₂⟩
    · rw [NewPostgresDB_construct_error (record d) hne hp (record_NewWithConfig d _ _ _ hn)]
      rfl
    · rcases hg : d.Ping pool w₂ with ⟨_ | err, w₃⟩
      · rw [NewPostgresDB_ok (record d) hne hp (record_NewWithConfig d _ _ _ hn)
          (record_Ping d _ _ _ hg)]
        rfl
      · rw [NewPostgresDB_ping_error (record d) hne hp (record_NewWithConfig d _ _ _ hn)
          (record_Ping d _ _ _ hg)]
        rfl
  · rcases hn : d.NewWithConfig { parsed with MaxConns := 25, MinConns := 5 } w₁
      with ⟨err | pool, w₂⟩
    · rw [NewPostgresDB_construct_error (record d) hne hp (record_NewWithConfig d _ _ _ hn)]
      rfl
    · rcases hg : d.Ping pool w₂ with ⟨_ | err, w₃⟩
      · rw [NewPostgresDB_ok (record d) hne hp (record_NewWithConfig d _ _ _ hn)
          (record_Ping d _ _ _ hg)]
        rfl
      · rw [NewPostgresDB_ping_error (record d) hne hp (record_NewWithConfig d _ _ _ hn)
          (record_Ping d _ _ _ hg)]
        rfl
  · intro err w₂ hn
    exact NewPostgresDB_construct_error d hne hparse hn
  · intro pool w₂ w₃ hn hg
    exact NewPostgresDB_ok d hne hparse hn hg

/-- C4 at a concrete input: the demo driver parses `postgres://db` to bounds 4
and 0, and the constructor receives bounds 25 and 5. -/
theorem NewPostgresDB_pool_bounds_demo :
    "postgres://db" ≠ "" ∧
    (demoDriver none).ParseConfig "postgres://db" 0 = (Except.ok ⟨4, 0, "postgres://db"⟩, 1) ∧
    configsConstructed (NewPostgresDB (record (demoDriver none)) "postgres://db" (0, [])).2.2 =
      [{ MaxConns := 25, MinConns := 5, rest := "postgres://db" }] :=
  ⟨by decide, rfl,
    (NewPostgresDB_pool_bounds (demoDriver none) "postgres://db" 0 1 ⟨4, 0, "postgres://db"⟩
      (by decide) rfl).1⟩

/-- C5: `NewPostgresDB` returns a pool exactly when the connection string is
non-empty and parsing, pool construction and the ping all succeed, and the pool
is the constructed one; when one of the three steps fails it returns no pool
and an error that wraps the error of the step under a message naming the step.
In each case the outside state is the one the last step attempted left, and a
driver that logs its calls has logged exactly the steps up to that one, once
each: no step is run again and none after a failure. -/
theorem NewPostgresDB_outcome {W R P : Type} (d : Driver W R P) (url : String) (w : W) :
    ((∃ pool, (NewPostgresDB d url w).1 = Except.ok pool) ↔
      (url ≠ "" ∧ ∃ parsed w₁ pool w₂ w₃,
        d.ParseConfig url w = (Except.ok parsed, w₁) ∧
        d.NewWithConfig { parsed with MaxConns := 25, MinConns := 5 } w₁ = (Except.ok pool, w₂) ∧
        d.Ping pool w₂ = (none, w₃))) ∧
    (url ≠ "" → ∀ parsed w₁ pool w₂ w₃, d.ParseConfig url w = (Except.ok parsed, w₁) →
      d.NewWithConfig { parsed with MaxConns := 25, MinConns := 5 } w₁ = (Except.ok pool, w₂) →
      d.Ping pool w₂ = (none, w₃) →
      NewPostgresDB d url w = (Except.ok pool, w₃) ∧
      NewPostgresDB (record d) url (w, []) =
        (Except.ok pool, (w₃, [Call.ParseConfig url,
          Call.NewWithConfig { parsed with MaxConns := 25, MinConns := 5 }, Call.Ping pool]))) ∧
    (url ≠ "" → ∀ err w₁, d.ParseConfig url w = (Except.error err, w₁) →
      NewPostgresDB d url w =
        (Except.error (GoError.wrapError ("unable to parse database URL: " ++ err.Error) err),
          w₁) ∧
      NewPostgresDB (record d) url (w, []) =
        (Except.error (GoError.wrapError ("unable to parse database URL: " ++ err.Error) err),
          (w₁, [Call.ParseConfig url]))) ∧
    (url ≠ "" → ∀ parsed w₁ err w₂, d.ParseConfig url w = (Except.ok parsed, w₁) →
      d.NewWithConfig { parsed with MaxConns := 25, MinConns := 5 } w₁ = (Except.error err, w₂) →
      NewPostgresDB d url w =
        (Except.error
          (GoError.wrapError ("unable to create connection pool: " ++ err.Error) err), w₂) ∧
      NewPostgresDB (record d) url (w, []) =
        (Except.error
          (GoError.wrapError ("unable to create connection pool: " ++ err.Error) err),
          (w₂, [Call.ParseConfig url,
            Call.NewWithConfig { parsed with MaxConns := 25, MinConns := 5 }]))) ∧
    (url ≠ "" → ∀ parsed w₁ pool w₂ err w₃, d.ParseConfig url w = (Except.ok parsed, w₁) →
      d.NewWithConfig { parsed with MaxConns := 25, MinConns := 5 } w₁ = (Except.ok pool, w₂) →
      d.Ping pool w₂ = (some err, w₃) →
      NewPostgresDB d url w =
        (Except.error (GoError.wrapError ("unable to ping database: " ++ err.Error) err), w₃) ∧
      NewPostgresDB (record d) url (w, []) =
        (Except.error (GoError.wrapError ("unable to ping database: " ++ err.Error) err),
          (w₃, [Call.ParseConfig url,
            Call.NewWithConfig { parsed with MaxConns := 25, MinConns := 5 },
            Call.Ping pool]))) ∧
    (NewPostgresDB (record d) url (w, [])).2.2.map Call.step <+:
      [Step.parse, Step.construct, Step.ping] := by
  refine ⟨⟨?_, ?_⟩, ?_, ?_, ?_, ?_, ?_⟩
  · rintro ⟨pool, h⟩
    by_cases hne : url = ""
    · subst hne
      cases h
    · refine ⟨hne, ?_⟩
      rcases hparse : d.ParseConfig url w with ⟨err | parsed, w₁⟩
      · rw [NewPostgresDB_parse_error d hne hparse] at h
        cases h
      · rcases hn : d.NewWithConfig { parsed with MaxConns := 25, MinConns := 5 } w₁
          with ⟨err | pool₂, w₂⟩
        · rw [NewPostgresDB_construct_error d hne hparse hn] at h
          cases h
        · rcases hp : d.Ping pool₂ w₂ with ⟨_ | err, w₃⟩
          · exact ⟨parsed, w₁, pool₂, w₂, w₃, rfl, hn, hp⟩
          · rw [NewPostgresDB_ping_error d hne hparse hn hp] at h
            cases h
  · rintro ⟨hne, parsed, w₁, pool, w₂, w₃, hparse, hn, hp⟩
    exact ⟨pool, by rw [NewPostgresDB_ok d hne hparse hn hp]⟩
  · intro hne parsed w₁ pool w₂ w₃ hparse hn hp
    exact ⟨NewPostgresDB_ok d hne hparse hn hp,
      NewPostgresDB_ok (record d) hne (record_ParseConfig d url w [] hparse)
        (record_NewWithConfig d _ _ _ hn) (record_Ping d _ _ _ hp)⟩
  · intro hne err w₁ hparse
    exact ⟨NewPostgresDB_parse_error d hne hparse,
      NewPostgresDB_parse_error (record d) hne (record_ParseConfig d url w [] hparse)⟩
  · intro hne parsed w₁ err w₂ hparse hn
    exact ⟨NewPostgresDB_construct_error d hne hparse hn,
      NewPostgresDB_construct_error (record d) hne (record_ParseConfig d url w [] hparse)
        (record_NewWithConfig d _ _ _ hn)⟩
  · intro hne parsed w₁ pool w₂ err w₃ hparse hn hp
    exact ⟨NewPostgresDB_ping_error d hne hparse hn hp,
      NewPostgresDB_ping_error (record d) hne (record_ParseConfig d url w [] hparse)
        (record_NewWithConfig d _ _ _ hn) (record_Ping d _ _ _ hp)⟩
  · by_cases hne : url = ""
    · subst hne
      exact List.nil_prefix
    · rcases hparse : d.ParseConfig url w with ⟨err | parsed, w₁⟩
      · rw [NewPostgresDB_parse_error (record d) hne (record_ParseConfig d url w [] hparse)]
        exact steps_prefix_one
      · rcases hn : d.NewWithConfig { parsed with MaxConns := 25, MinConns := 5 } w₁
          with ⟨err | pool, w₂⟩
        · rw [NewPostgresDB_construct_error (record d) hne
            (record_ParseConfig d url w [] hparse) (record_NewWithConfig d _ _ _ hn)]
          exact steps_prefix_two
        · rcases hp : d.Ping pool w₂ with ⟨_ | err, w₃⟩
          · rw [NewPostgresDB_ok (record d) hne (record_ParseConfig d url w [] hparse)
              (record_NewWithConfig d _ _ _ hn) (record_Ping d _ _ _ hp)]
            exact List.prefix_refl _
          · rw [NewPostgresDB_ping_error (record d) hne (record_ParseConfig d url w [] hparse)
              (record_NewWithConfig d _ _ _ hn) (record_Ping d _ _ _ hp)]
            exact List.prefix_refl _

/-- C5 at concrete inputs: with the demo driver, a failing ping gives the
wrapped ping error after three logged calls, one of each step. -/
theorem NewPostgresDB_outcome_demo :
    NewPostgresDB (demoDriver (some Step.ping)) "postgres://db" 0 =
      (Except.error (GoError.wrapError "unable to ping database: connection refused"
        (GoError.errorString "connection refused")), 3) ∧
    NewPostgresDB (record (demoDriver (some Step.ping))) "postgres://db" (0, []) =
      (Except.error (GoError.wrapError "unable to ping database: connection refused"
        (GoError.errorString "connection refused")),
        (3, [Call.ParseConfig "postgres://db", Call.NewWithConfig ⟨25, 5, "postgres://db"⟩,
          Call.Ping 25])) :=
  (NewPostgresDB_outcome (demoDriver (some Step.ping)) "postgres://db" 0).2.2.2.2.1
    (by decide) ⟨4, 0, "postgres://db"⟩ 1 25 2 (GoError.errorString "connection refused") 3
    rfl rfl rfl

end database

/-! ## Schema initialization -/

namespace postgres

open sql

theorem mem_tableNames_of_findTable (db : Catalog) {name : String} {t : Table}
    (h : db.findTable name = some t) : name ∈ db.tableNames := by
  unfold Catalog.findTable at h
  have hm := List.mem_of_find?_eq_some h
  have hn : t.name = name := by simpa using List.find?_some h
  exact List.mem_map.2 ⟨t, hm, hn⟩

theorem hasRelation_of_table (db : Catalog) {name : String} (h : name ∈ db.tableNames) :
    db.hasRelation name = true := by
  simp [Catalog.hasRelation, Catalog.relationNames, h]

theorem hasRelation_of_index (db : Catalog) {i : Index} (h : i ∈ db.indexes) :
    db.hasRelation i.name = true := by
  have : i.name ∈ db.indexNames := List.mem_map.2 ⟨i, h, rfl⟩
  simp [Catalog.hasRelation, Catalog.relationNames, this]

theorem execStatement_of_present (db : Catalog) (script : List Statement)
    (hall : ∀ st ∈ script, db.present st = true)
    (st : Statement) (hp : db.present st = true) (hs : skippable script st = true) :
    execStatement db st = Except.ok db := by
  cases st with
  | createTable ine name cols =>
    simp only [skippable] at hs
    simp only [Catalog.present] at hp
    cases hf : db.findTable name with
    | none => simp [hf] at hp
    | some t =>
      have hr := hasRelation_of_table db (mem_tableNames_of_findTable db hf)
      simp [execStatement, hr, hs]
  | createIndex ine name table col desc =>
    simp only [skippable, Bool.and_eq_true, List.any_eq_true] at hs
    obtain ⟨hine, st₂, hst₂, hm⟩ := hs
    cases st₂ with
    | createTable ine₂ name₂ cols₂ =>
      simp only [Bool.and_eq_true, decide_eq_true_eq, List.any_eq_true] at hm
      obtain ⟨hname, c, hc, hcol⟩ := hm
      have hp₂ := hall _ hst₂
      simp only [Catalog.present] at hp₂
      rw [hname] at hp₂
      cases hf : db.findTable table with
      | none => simp [hf] at hp₂
      | some t =>
        simp only [hf, List.all_eq_true, decide_eq_true_eq] at hp₂
        have hmem : col ∈ t.columns := hcol ▸ hp₂ c hc
        simp only [Catalog.present, decide_eq_true_eq] at hp
        have hr := hasRelation_of_index db hp
        simp only at hr
        simp [execStatement, hf, hmem, hr, hine]
    | createIndex _ _ _ _ _ => simp at hm
    | unrecognised _ => simp at hm
  | unrecognised ts => simp [skippable] at hs

theorem execStatements_of_present (db : Catalog) (script : List Statement)
    (hall : ∀ st ∈ script, db.present st = true)
    (sts : List Statement) (hp : ∀ st ∈ sts, db.present st = true)
    (hs : ∀ st ∈ sts, skippable script st = true) :
    execStatements db sts = Except.ok db := by
  induction sts with
  | nil => rfl
  | cons st sts ih =>
    simp only [execStatements,
      execStatement_of_present db script hall st (hp st (List.mem_cons_self _ _))
        (hs st (List.mem_cons_self _ _))]
    exact ih (fun s h => hp s (List.mem_cons_of_mem _ h))
      (fun s h => hs s (List.mem_cons_of_mem _ h))

theorem parseScript_schema : parseScript database.schema = schemaStatements := by
  decide!

theorem schema_statements_skippable :
    ∀ st ∈ schemaStatements, skippable schemaStatements st = true := by
  decide

end postgres

namespace database

open sql postgres

/-- C7: the script of `InitSchema` holds exactly ten statements, each a
create-if-not-exists: the tables users, sessions, applications, emails and
selected_interns, then indexes on users(email), sessions(token),
applications(status), applications(applied_at DESC) and emails(sent_at DESC);
and `InitSchema` returns an error exactly when executing the script does,
wrapping that error. -/
theorem InitSchema_script :
    (parseScript schema).map Statement.header =
      [Header.table true "users", Header.table true "sessions",
       Header.table true "applications", Header.table true "emails",
       Header.table true "selected_interns",
       Header.index true "users" "email" false,
       Header.index true "sessions" "token" false,
       Header.index true "applications" "status" false,
       Header.index true "applications" "applied_at" true,
       Header.index true "emails" "sent_at" true] ∧
    (parseScript schema).length = 10 ∧
    (∀ (W P : Type) (Exec : P → String → W → Option GoError × W) (pool : P) (w : W),
      ((InitSchema Exec pool w).1 ≠ none ↔ (Exec pool schema w).1 ≠ none) ∧
      (∀ err, (Exec pool schema w).1 = some err →
        (InitSchema Exec pool w).1 =
          some (GoError.wrapError ("failed to initialize schema: " ++ err.Error) err)) ∧
      (InitSchema Exec pool w).2 = (Exec pool schema w).2) := by
  refine ⟨?_, ?_, ?_⟩
  · rw [parseScript_schema]
    decide
  · rw [parseScript_schema]
    decide
  intro W P Exec pool w
  unfold InitSchema
  rcases h : Exec pool schema w with ⟨_ | err, w₁⟩
  · simp
  · simp [fmt.ErrorfW]

end database

/-! ## The JSON encoding of a user -/

namespace models

/-- C9: the JSON encoding of a `User` does not depend on `PasswordHash`: the
encoding is the same whatever the password hash is set to, and its keys are
id, name, email, phone, address, created_at and, when set, last_login. -/
theorem User_MarshalJSON_without_PasswordHash (u : User) (hash : String) :
    ({ u with PasswordHash := hash }).MarshalJSON = u.MarshalJSON ∧
    u.MarshalJSON.map Prod.fst =
      ["id", "name", "email", "phone", "address", "created_at"] ++
        (if u.LastLogin.isSome then ["last_login"] else []) := by
  obtain ⟨id, name, email, phone, address, pw, created, last⟩ := u
  cases last with
  | none => exact ⟨rfl, rfl⟩
  | some t => exact ⟨rfl, rfl⟩

/-- C9 on a value: giving the sample user another password hash leaves its
encoding as it is, with the six keys of a user who never logged in. -/
theorem User_MarshalJSON_sample :
    ({ User.sample with PasswordHash := "another-hash" }).MarshalJSON = User.sample.MarshalJSON ∧
    User.sample.MarshalJSON.map Prod.fst =
      ["id", "name", "email", "phone", "address", "created_at"] :=
  User_MarshalJSON_without_PasswordHash User.sample "another-hash"

end models
